import Mathlib

/-!
Shallow embedding of the Wake Analyzer plan-validation and execution core.

Validator source: `wake-analyzer-backend/app/services/plan_validator.py`
(`PlanValidator.validate_plan`, `PlanValidator._validate_filter`).
Engine source: `wake-analyzer-service/app/execution_engine.py`
(`ExecutionEngine.load_csv`, `execute_plan`, `_apply_filters`,
`_execute_operation`, `_generate_chart`).

Python plan objects are modelled by `PyVal` (the JSON-like values a plan can
hold); Python exceptions are modelled by `Except`.  Floating point numbers are
idealised as rationals.  Error strings produced by the validator embed
Python-set iteration order, so validator errors are modelled as the inductive
`VErr`, one constructor per distinct error site in the source (filter errors
carry the filter index, as in the source messages).
-/

namespace WakeAnalyzer

/-- Python values as they appear in a decoded plan object. -/
inductive PyVal where
  | pnone : PyVal
  | pbool : Bool → PyVal
  | pnum : ℚ → PyVal
  | pstr : String → PyVal
  | plist : List PyVal → PyVal
  | pdict : List (String × PyVal) → PyVal
deriving Repr

/-- Python truthiness (`if plan.get(...)`). -/
def PyVal.truthy : PyVal → Bool
  | .pnone => false
  | .pbool b => b
  | .pnum q => decide (q ≠ 0)
  | .pstr s => decide (s ≠ "")
  | .plist xs => !xs.isEmpty
  | .pdict d => !d.isEmpty

/-- Hashable Python values: membership of a list or dict in a set raises
`TypeError: unhashable type` in the source. -/
def PyVal.isHashable : PyVal → Bool
  | .plist _ => false
  | .pdict _ => false
  | _ => true

/-- Whether a value is the given string (Python `==` against a string literal:
only a `str` can compare equal). -/
def pyIsStrVal (v : PyVal) (s : String) : Bool :=
  match v with
  | .pstr t => t == s
  | _ => false

/-- Whether a value is a Python `str` (`isinstance(v, str)`). -/
def PyVal.isStr : PyVal → Bool
  | .pstr _ => true
  | _ => false

/-- Python exceptions reachable inside `validate_plan`. -/
inductive PyErr where
  | typeError
  | attributeError
deriving DecidableEq, Repr

/-- `v in S` for a Python set of string constants: raises `TypeError` on an
unhashable `v`, otherwise only a `str` can be a member. -/
def setMemStr (v : PyVal) (ss : List String) : Except PyErr Bool :=
  match v with
  | .plist _ => .error .typeError
  | .pdict _ => .error .typeError
  | .pstr s => .ok (ss.contains s)
  | _ => .ok false

/-- `PlanValidator.VALID_OPERATIONS`. -/
def validOperations : List String :=
  ["mean", "sum", "count", "min", "max", "std",
   "correlation", "regression", "forecast"]

/-- `PlanValidator.VALID_OPERATORS`. -/
def validOperators : List String := ["==", "!=", ">", "<", ">=", "<="]

/-- The string members of `PlanValidator.VALID_CHART_TYPES` (the set also
contains `None`, handled in `chartTypeMem`). -/
def validChartTypes : List String :=
  ["line", "bar", "scatter", "heatmap", "box", "histogram"]

/-- `v in VALID_CHART_TYPES`, where the set contains `None` as a member. -/
def chartTypeMem (v : PyVal) : Except PyErr Bool :=
  match v with
  | .plist _ => .error .typeError
  | .pdict _ => .error .typeError
  | .pnone => .ok true
  | .pstr s => .ok (validChartTypes.contains s)
  | _ => .ok false

/-- Validator error messages, one constructor per distinct `errors.append`
site in `validate_plan` / `_validate_filter`; filter errors carry the filter
index interpolated into the source message. -/
inductive VErr where
  | missingOperationField
  | invalidOperation
  | filtersNotArray
  | filterNotObject (i : Nat)
  | filterMissingColumn (i : Nat)
  | filterColumnNotString (i : Nat)
  | filterMissingOperator (i : Nat)
  | filterInvalidOperator (i : Nat)
  | filterMissingValue (i : Nat)
  | groupByNotArray
  | groupByElementNotString
  | invalidChartType
  | clarificationQuestionMissing
  | correlationRequiresAxes
  | regressionRequiresAxes
  | forecastRequiresTimeColumn
  | forecastRequiresTargetColumn
deriving DecidableEq, Repr

/-- Validator warnings (`warnings.append` sites). -/
inductive VWarn where
  | targetColumnRecommended (op : String)
deriving DecidableEq, Repr

/-- The verdict dictionary returned by `validate_plan`. -/
structure Verdict where
  valid : Bool
  errors : List VErr
  warnings : List VWarn
deriving DecidableEq, Repr

/-- Dict lookup, first match (Python dict keys are unique). -/
def dLookup (d : List (String × PyVal)) (k : String) : Option PyVal :=
  List.lookup k d

/-- `plan.get(k)`: `None` when the key is absent. -/
def dGet (d : List (String × PyVal)) (k : String) : PyVal :=
  (dLookup d k).getD .pnone

/-- `PlanValidator._validate_filter(filter_obj, index)`. -/
def validate_filter (filterObj : PyVal) (i : Nat) : Except PyErr (List VErr) :=
  match filterObj with
  | .pdict f => do
      let e1 : List VErr :=
        match dLookup f "column" with
        | none => [.filterMissingColumn i]
        | some v => if v.isStr then [] else [.filterColumnNotString i]
      let e2 : List VErr ←
        match dLookup f "operator" with
        | none => pure [VErr.filterMissingOperator i]
        | some v => do
            let b ← setMemStr v validOperators
            pure (if b then ([] : List VErr) else [.filterInvalidOperator i])
      let e3 : List VErr :=
        match dLookup f "value" with
        | none => [.filterMissingValue i]
        | some _ => []
      pure (e1 ++ e2 ++ e3)
  | _ => .ok [.filterNotObject i]

/-- The `for i, filter_obj in enumerate(plan['filters'])` loop, accumulating
per-filter errors starting at index `i`. -/
def validateFiltersFrom (i : Nat) : List PyVal → Except PyErr (List VErr)
  | [] => .ok []
  | f :: rest => do
      let e ← validate_filter f i
      let es ← validateFiltersFrom (i + 1) rest
      pure (e ++ es)

/-- Substring test (`needle in hay` for Python strings). -/
def strContains (hay needle : String) : Bool :=
  (hay.splitOn needle).length != 1

/-- The first block of `validate_plan`: `if 'operation' not in plan ... elif
plan['operation'] not in cls.VALID_OPERATIONS ...` (can raise `TypeError`). -/
def opCheckE (d : List (String × PyVal)) : Except PyErr (List VErr) :=
  match dLookup d "operation" with
  | none => .ok [VErr.missingOperationField]
  | some v => do
      let b ← setMemStr v validOperations
      pure (if b then ([] : List VErr) else [VErr.invalidOperation])

/-- The `filters` block of `validate_plan` (can raise `TypeError` from an
unhashable filter operator). -/
def filtersCheckE (d : List (String × PyVal)) : Except PyErr (List VErr) :=
  match dLookup d "filters" with
  | none => .ok []
  | some (.plist fs) => validateFiltersFrom 0 fs
  | some _ => .ok [VErr.filtersNotArray]

/-- The `group_by` block of `validate_plan` (never raises). -/
def groupCheck (d : List (String × PyVal)) : List VErr :=
  match dLookup d "group_by" with
  | none => []
  | some (.plist gs) =>
      if gs.all PyVal.isStr then [] else [VErr.groupByElementNotString]
  | some _ => [VErr.groupByNotArray]

/-- The `chart_type` block of `validate_plan` (can raise `TypeError`). -/
def chartCheckE (d : List (String × PyVal)) : Except PyErr (List VErr) :=
  match dLookup d "chart_type" with
  | none => .ok []
  | some v => do
      let b ← chartTypeMem v
      pure (if b then ([] : List VErr) else [VErr.invalidChartType])

/-- The `requires_clarification` block of `validate_plan`. -/
def clarCheck (d : List (String × PyVal)) : List VErr :=
  if (dGet d "requires_clarification").truthy &&
     !(dGet d "clarification_question").truthy
  then [VErr.clarificationQuestionMissing] else []

/-- The aggregation `target_column` warning block of `validate_plan`. -/
def aggWarn (d : List (String × PyVal)) : List VWarn :=
  match dGet d "operation" with
  | .pstr s =>
      if ["mean", "sum", "std", "min", "max"].contains s &&
         !(dGet d "target_column").truthy
      then [VWarn.targetColumnRecommended s] else []
  | _ => []

/-- The operation-specific blocks of `validate_plan` (correlation, regression,
forecast; the source appends their errors in this order). -/
def opSpecificCheck (d : List (String × PyVal)) : List VErr :=
  (if pyIsStrVal (dGet d "operation") "correlation" &&
      !((dGet d "x_axis").truthy && (dGet d "y_axis").truthy)
   then [VErr.correlationRequiresAxes] else []) ++
  (if pyIsStrVal (dGet d "operation") "regression" &&
      !((dGet d "x_axis").truthy && (dGet d "y_axis").truthy)
   then [VErr.regressionRequiresAxes] else []) ++
  (if pyIsStrVal (dGet d "operation") "forecast" &&
      !(dGet d "time_column").truthy
   then [VErr.forecastRequiresTimeColumn] else []) ++
  (if pyIsStrVal (dGet d "operation") "forecast" &&
      !(dGet d "target_column").truthy
   then [VErr.forecastRequiresTargetColumn] else [])

/-- `validate_plan` on a plan that is a dict: the blocks run in source order
(so the first unhashable membership test raises), errors accumulate in source
order, and `valid` is `len(errors) == 0`. -/
def validatePlanDict (d : List (String × PyVal)) : Except PyErr Verdict := do
  let opErrs ← opCheckE d
  let filterErrs ← filtersCheckE d
  let groupErrs := groupCheck d
  let chartErrs ← chartCheckE d
  let clarErrs := clarCheck d
  let warns := aggWarn d
  let errors :=
    opErrs ++ filterErrs ++ groupErrs ++ chartErrs ++ clarErrs ++
    opSpecificCheck d
  pure { valid := errors.isEmpty, errors := errors, warnings := warns }

/-- `PlanValidator.validate_plan(plan)` on an arbitrary Python value.  A
non-dict plan always raises: membership `'operation' not in plan` is a
`TypeError` for `None`/bool/number plans; for a string or list plan each
`plan[...]` subscript with a string key is a `TypeError`, and if no subscript
is reached, `plan.get('requires_clarification')` is an `AttributeError`. -/
def validate_plan (plan : PyVal) : Except PyErr Verdict :=
  match plan with
  | .pdict d => validatePlanDict d
  | .pnone => .error .typeError
  | .pbool _ => .error .typeError
  | .pnum _ => .error .typeError
  | .pstr s =>
      if strContains s "operation" then .error .typeError
      else if strContains s "filters" then .error .typeError
      else if strContains s "group_by" then .error .typeError
      else if strContains s "chart_type" then .error .typeError
      else .error .attributeError
  | .plist xs =>
      if xs.any (fun v => pyIsStrVal v "operation") then .error .typeError
      else if xs.any (fun v => pyIsStrVal v "filters") then .error .typeError
      else if xs.any (fun v => pyIsStrVal v "group_by") then .error .typeError
      else if xs.any (fun v => pyIsStrVal v "chart_type") then .error .typeError
      else .error .attributeError

/-! ### Total characterization of the validator on dict plans

Independently defined per-check functions; the characterization lemma below
proves that on every dict plan whose membership-tested values are hashable
the validator succeeds and its error list is the concatenation of these
checks, and that otherwise it raises `TypeError`. -/

/-- Membership in a set of string constants, on hashable values. -/
def setMemOk (v : PyVal) (ss : List String) : Bool :=
  match v with
  | .pstr s => ss.contains s
  | _ => false

/-- Membership in `VALID_CHART_TYPES` (which contains `None`), on hashable
values. -/
def chartMemOk : PyVal → Bool
  | .pnone => true
  | .pstr s => validChartTypes.contains s
  | _ => false

/-- Rule 1: the `operation` field check. -/
def opCheckT (d : List (String × PyVal)) : List VErr :=
  match dLookup d "operation" with
  | none => [VErr.missingOperationField]
  | some v => if setMemOk v validOperations then [] else [VErr.invalidOperation]

/-- One filter element's itemized errors. -/
def validateFilterT (f : PyVal) (i : Nat) : List VErr :=
  match f with
  | .pdict fd =>
      (match dLookup fd "column" with
       | none => [VErr.filterMissingColumn i]
       | some v => if v.isStr then [] else [VErr.filterColumnNotString i]) ++
      (match dLookup fd "operator" with
       | none => [VErr.filterMissingOperator i]
       | some v =>
           if setMemOk v validOperators then []
           else [VErr.filterInvalidOperator i]) ++
      (match dLookup fd "value" with
       | none => [VErr.filterMissingValue i]
       | some _ => [])
  | _ => [VErr.filterNotObject i]

/-- All filter elements' errors, indices from `i`. -/
def validateFiltersT (i : Nat) : List PyVal → List VErr
  | [] => []
  | f :: rest => validateFilterT f i ++ validateFiltersT (i + 1) rest

/-- Rule 2: the `filters` shape check. -/
def filterCheckT (d : List (String × PyVal)) : List VErr :=
  match dLookup d "filters" with
  | none => []
  | some (.plist fs) => validateFiltersT 0 fs
  | some _ => [VErr.filtersNotArray]

/-- Rule 4: the `chart_type` membership check. -/
def chartCheckT (d : List (String × PyVal)) : List VErr :=
  match dLookup d "chart_type" with
  | none => []
  | some v => if chartMemOk v then [] else [VErr.invalidChartType]

/-- All errors, in the source's accumulation order. -/
def errorsOf (d : List (String × PyVal)) : List VErr :=
  opCheckT d ++ filterCheckT d ++ groupCheck d ++ chartCheckT d ++
  clarCheck d ++ opSpecificCheck d

/-- The verdict computed on a hash-safe dict plan. -/
def verdictOf (d : List (String × PyVal)) : Verdict :=
  ⟨(errorsOf d).isEmpty, errorsOf d, aggWarn d⟩

/-- One filter element does not make a membership test raise. -/
def hashSafeFilter (f : PyVal) : Bool :=
  match f with
  | .pdict fd =>
      match dLookup fd "operator" with
      | some v => v.isHashable
      | none => true
  | _ => true

/-- No filter element makes a membership test raise. -/
def hashSafeFilters : List PyVal → Bool
  | [] => true
  | f :: rest => hashSafeFilter f && hashSafeFilters rest

/-- The `operation` value, if present, is hashable. -/
def opHS (d : List (String × PyVal)) : Bool :=
  match dLookup d "operation" with
  | some v => v.isHashable
  | none => true

/-- The `filters` value, if a list, has only hash-safe elements. -/
def filtersHS (d : List (String × PyVal)) : Bool :=
  match dLookup d "filters" with
  | some (.plist fs) => hashSafeFilters fs
  | _ => true

/-- The `chart_type` value, if present, is hashable. -/
def chartHS (d : List (String × PyVal)) : Bool :=
  match dLookup d "chart_type" with
  | some v => v.isHashable
  | none => true

/-- The dict plan's membership-tested values are all hashable, i.e. the
validator body reaches no `TypeError`. -/
def hashSafe (d : List (String × PyVal)) : Bool :=
  opHS d && filtersHS d && chartHS d

/-! ## Execution engine (`wake-analyzer-service/app/execution_engine.py`)

The engine is embedded over a columnar frame of rational/textual cells;
pandas floats are idealised as rationals (`Rat.sqrt` stands for the float
square root in `std` and `correlation`, whose numerics no claim touches).
The external numerical libraries appear as parameters: `fitES` is the
`ExponentialSmoothing(train, seasonal_periods=4, trend='add',
seasonal='add').fit().forecast(steps=3)` call of the `try:` block (`none`
models any exception caught by the bare `except:`), `render` is the
matplotlib body of `_generate_chart` (`.error` models any exception), and
`pdSort` is `df.sort_values(time_col)` — pandas' default `kind='quicksort'`,
documented by pandas as not stable, so `IsPandasSortOf` below states exactly
its documented contract: an ascending permutation of the rows. -/

/-- One cell of a frame: a numeric or a textual value. -/
inductive Cell where
  | cnum : ℚ → Cell
  | cstr : String → Cell
deriving DecidableEq, Repr

/-- A loaded frame: column names, per-column numeric-dtype flags (fixed at
load time and preserved by row filtering, as pandas dtypes are), rows. -/
structure Frame where
  cols : List String
  numeric : List Bool
  rows : List (List Cell)
deriving DecidableEq, Repr

/-- Position of a column name in `df.columns`. -/
def colIdx (df : Frame) (c : String) : Option Nat :=
  List.findIdx? (fun s => s == c) df.cols

/-- The cell of row `r` in column `i` (rows have one cell per column; the
default is unreachable on aligned rows). -/
def cellAt (r : List Cell) (i : Nat) : Cell := r.getD i (.cstr "")

/-- `pd.api.types.is_numeric_dtype(df[col].dtype)` for column `i`. -/
def numericAt (df : Frame) (i : Nat) : Bool := df.numeric.getD i false

/-- Boolean-mask row selection `filtered[series]`: keeps row order, columns
and dtypes. -/
def maskRows (df : Frame) (p : List Cell → Bool) : Frame :=
  ⟨df.cols, df.numeric, df.rows.filter p⟩

/-- Digit string to number. -/
def digitsToNat (cs : List Char) : ℕ :=
  cs.foldl (fun a c => a * 10 + (c.toNat - 48)) 0

/-- Decimal literal parser standing in for Python `float(str)` (optional
sign, digits, optional fraction; exotic accepted forms — exponents, `inf`,
underscores — are not exercised by any claim and parse as failures here). -/
def parseDecimal (s : String) : Option ℚ :=
  let cs := s.trim.toList
  let signed : Bool × List Char :=
    match cs with
    | '-' :: rest => (true, rest)
    | '+' :: rest => (false, rest)
    | _ => (false, cs)
  let intPart := signed.2.takeWhile Char.isDigit
  let rest := signed.2.dropWhile Char.isDigit
  let mag : Option ℚ :=
    match rest with
    | [] => if intPart.isEmpty then none else some (digitsToNat intPart)
    | '.' :: frac =>
        if frac.all Char.isDigit && !(intPart.isEmpty && frac.isEmpty) then
          some ((digitsToNat intPart : ℚ) +
            (digitsToNat frac : ℚ) / (10 ^ frac.length))
        else none
    | _ => none
  mag.map (fun q => if signed.1 then -q else q)

/-- `float(value)` as used for value coercion in `_apply_filters`: numbers
and booleans coerce, numeric strings parse, everything else raises (caught by
the source and re-raised as the type-mismatch `ValueError`). -/
def pyFloat : PyVal → Option ℚ
  | .pnum q => some q
  | .pbool b => some (if b then 1 else 0)
  | .pstr s => parseDecimal s
  | _ => none

/-- Python `==` between a cell of an object-dtype column and a plan value
(equal only within a type family; `True == 1` holds). -/
def pyEqCell (c : Cell) (v : PyVal) : Bool :=
  match c, v with
  | .cstr s, .pstr t => s == t
  | .cnum q, .pnum p => q == p
  | .cnum q, .pbool b => q == (if b then 1 else 0)
  | _, _ => false

/-- Three-way rational comparison. -/
def cmpQ (q p : ℚ) : Ordering :=
  if q < p then .lt else if p < q then .gt else .eq

/-- Python `<`/`>`/`<=`/`>=` between a cell of an object-dtype column and a
plan value: ordered within a type family, otherwise `TypeError`. -/
def cellCompare (c : Cell) (v : PyVal) : Except String Ordering :=
  match c, v with
  | .cstr s, .pstr t => .ok (compare s t)
  | .cnum q, .pnum p => .ok (cmpQ q p)
  | .cnum q, .pbool b => .ok (cmpQ q (if b then 1 else 0))
  | _, _ => .error "TypeError: unorderable types"

/-- The `if/elif` operator chain of `_apply_filters` on a numeric column
(cell `q` against the coerced value `v`); an unlisted operator never reaches
this (the chain falls through). -/
def numCmp (op : String) (q v : ℚ) : Bool :=
  if op == "==" then q == v
  else if op == "!=" then !(q == v)
  else if op == ">" then decide (v < q)
  else if op == "<" then decide (q < v)
  else if op == ">=" then decide (v ≤ q)
  else if op == "<=" then decide (q ≤ v)
  else false

/-- Whether the operator is one the `if/elif` chain handles; any other
operator leaves the frame unchanged. -/
def knownOp (op : String) : Bool := validOperators.contains op

/-- Whether an `Ordering` satisfies a comparison operator. -/
def ordSatisfies (op : String) (o : Ordering) : Bool :=
  if op == ">" then o == .gt
  else if op == "<" then o == .lt
  else if op == ">=" then o != .lt
  else if op == "<=" then o != .gt
  else false

/-- A filter dict as the engine reads it
(`f['column']`, `f['operator']`, `f['value']`). -/
structure FilterSpec where
  column : String
  operator : String
  value : PyVal
deriving Repr

/-- Row filtering where the per-row test itself may raise (object-dtype
columns under an ordering operator): pandas evaluates the comparison series
first, so one bad pair fails the whole filter. -/
def filterRowsE (test : List Cell → Except String Bool) :
    List (List Cell) → Except String (List (List Cell))
  | [] => .ok []
  | r :: rest => do
      let b ← test r
      let rs ← filterRowsE test rest
      pure (if b then r :: rs else rs)

/-- One iteration of the `_apply_filters` loop: column check, numeric value
coercion, then the operator chain.  On a numeric column a textual cell cannot
occur in pandas; `false` is the unreachable default. -/
def applyFilter (df : Frame) (flt : FilterSpec) : Except String Frame :=
  match colIdx df flt.column with
  | none => .error ("Column not found in dataset: " ++ flt.column)
  | some i =>
    if numericAt df i then
      match pyFloat flt.value with
      | none =>
          .error ("Cannot compare numeric column with non-numeric value: " ++
            flt.column)
      | some v =>
          if knownOp flt.operator then
            .ok (maskRows df (fun r =>
              match cellAt r i with
              | .cnum q => numCmp flt.operator q v
              | .cstr _ => false))
          else .ok df
    else
      if flt.operator == "==" then
        .ok (maskRows df (fun r => pyEqCell (cellAt r i) flt.value))
      else if flt.operator == "!=" then
        .ok (maskRows df (fun r => !pyEqCell (cellAt r i) flt.value))
      else if knownOp flt.operator then
        (filterRowsE (fun r =>
            (cellCompare (cellAt r i) flt.value).map
              (ordSatisfies flt.operator)) df.rows).map
          (fun rs => ⟨df.cols, df.numeric, rs⟩)
      else .ok df

/-- `ExecutionEngine._apply_filters` (the initial `df.copy()` is the
identity here; filters apply in list order, each narrowing the last). -/
def apply_filters (df : Frame) : List FilterSpec → Except String Frame
  | [] => .ok df
  | f :: rest => do
      let df1 ← applyFilter df f
      apply_filters df1 rest

/-- A plan as the engine reads it.  `execute_plan` is reached only with
validated plans, whose fields have these shapes: `plan['operation']` is the
required string, the `plan.get(...)` column fields are `Option`s. -/
structure Plan where
  operation : String
  target_column : Option String
  filters : List FilterSpec
  group_by : List String
  time_column : Option String
  x_axis : Option String
  y_axis : Option String
  chart_type : Option String
deriving Repr

/-- Mean of a series (`pandas` mean of an empty series is `NaN`; `0/0 = 0`
stands in, no claim touches it). -/
def meanQ (xs : List ℚ) : ℚ := xs.sum / xs.length

/-- Minimum of a series. -/
def minQ : List ℚ → ℚ
  | [] => 0
  | x :: xs => xs.foldl min x

/-- Maximum of a series. -/
def maxQ : List ℚ → ℚ
  | [] => 0
  | x :: xs => xs.foldl max x

/-- Sample (n−1) standard deviation; the float square root is idealised by
`Rat.sqrt`, and the `NaN` of a length-≤1 series by `0` (no claim touches
either). -/
def stdQ (xs : List ℚ) : ℚ :=
  if xs.length ≤ 1 then 0
  else Rat.sqrt
    (((xs.map (fun x => (x - meanQ xs) ^ 2)).sum) / ((xs.length : ℚ) - 1))

/-- `df[col]` read as a numeric series: `KeyError` if the column is missing;
a non-numeric dtype makes the aggregation or model fit raise, modelled as the
error here.  A textual cell inside a numeric-dtype column cannot occur in
pandas; `0` is the unreachable default. -/
def colNums (df : Frame) (c : String) : Except String (List ℚ) :=
  match colIdx df c with
  | none => .error ("KeyError: " ++ c)
  | some i =>
      if numericAt df i then
        .ok (df.rows.map (fun r =>
          match cellAt r i with
          | .cnum q => q
          | .cstr _ => 0))
      else .error ("TypeError: non-numeric column " ++ c)

/-- `plan['key']`: `KeyError` when the field is absent. -/
def reqField (o : Option String) (k : String) : Except String String :=
  match o with
  | some s => .ok s
  | none => .error ("KeyError: " ++ k)

/-- The group key of a row: its cells in the `group_by` columns (callers
check the columns exist; the default is unreachable). -/
def keyOf (df : Frame) (gcols : List String) (r : List Cell) : List Cell :=
  gcols.map (fun c =>
    match colIdx df c with
    | some i => cellAt r i
    | none => .cstr "")

/-- The distinct group keys, in first-occurrence order. -/
def groupKeys (df : Frame) (gcols : List String) : List (List Cell) :=
  (df.rows.map (keyOf df gcols)).eraseDups

/-- `df.groupby(group_by)[target].agg(...)`: the aggregate of the target
column over each group, keyed by the distinct key tuples. -/
def groupAgg (df : Frame) (gcols : List String) (ti : Nat)
    (agg : List ℚ → ℚ) : List (List Cell × ℚ) :=
  (groupKeys df gcols).map (fun k =>
    (k, agg (df.rows.filterMap (fun r =>
      if keyOf df gcols r = k then
        match cellAt r ti with
        | .cnum q => some q
        | .cstr _ => none
      else none))))

/-- Operation result payloads (`_execute_operation` return values). -/
inductive OpResult where
  | scalar : ℚ → OpResult
  | countR : ℕ → OpResult
  | grouped : List (List Cell × ℚ) → OpResult
  | groupedCount : List (List Cell × ℕ) → OpResult
  | correlationR : ℚ → String → String → OpResult
  | regressionR : ℚ → ℚ → ℚ → String → String → OpResult
  | forecastR : List ℚ → ℚ → String → Option String → OpResult
deriving DecidableEq, Repr

/-- One `mean`/`sum`/`min`/`max`/`std` arm of `_execute_operation`: the
grouped mapping when `group_by` is non-empty, otherwise the scalar
`float(df[target_col].agg())`; a missing column (or `target_column` absent,
i.e. `df[None]`) is a `KeyError`. -/
def simpleAgg (df : Frame) (plan : Plan) (agg : List ℚ → ℚ) :
    Except String OpResult :=
  if !plan.group_by.isEmpty then
    if plan.group_by.all (fun c => (colIdx df c).isSome) then
      match plan.target_column with
      | none => .error "KeyError: target_column"
      | some t =>
        match colIdx df t with
        | none => .error ("KeyError: " ++ t)
        | some ti =>
            if numericAt df ti then
              .ok (.grouped (groupAgg df plan.group_by ti agg))
            else .error ("TypeError: non-numeric column " ++ t)
    else .error "KeyError: group_by column"
  else
    match plan.target_column with
    | none => .error "KeyError: target_column"
    | some t => do
        let xs ← colNums df t
        pure (.scalar (agg xs))

/-- Pearson correlation (`df[[x, y]].corr().iloc[0, 1]`); the float square
root is idealised by `Rat.sqrt` and the zero-variance `NaN` by `0` (no claim
touches the numerics). -/
def pearson (xs ys : List ℚ) : ℚ :=
  let mx := meanQ xs
  let my := meanQ ys
  let sxy := ((xs.zip ys).map (fun p => (p.1 - mx) * (p.2 - my))).sum
  let sx := Rat.sqrt ((xs.map (fun x => (x - mx) ^ 2)).sum)
  let sy := Rat.sqrt ((ys.map (fun y => (y - my) ^ 2)).sum)
  if sx * sy = 0 then 0 else sxy / (sx * sy)

/-- `LinearRegression().fit(X, y)` with the single predictor `x`: ordinary
least squares on the centred data, returning (slope, intercept).  A constant
predictor zeroes the centred design matrix, and `scipy.linalg.lstsq` then
returns the minimum-norm solution: slope `0`, hence intercept `mean y` —
sklearn raises nothing. -/
def olsFit (xs ys : List ℚ) : ℚ × ℚ :=
  let mx := meanQ xs
  let my := meanQ ys
  let sxx := (xs.map (fun x => (x - mx) ^ 2)).sum
  let sxy := ((xs.zip ys).map (fun p => (p.1 - mx) * (p.2 - my))).sum
  let slope := if sxx = 0 then 0 else sxy / sxx
  (slope, my - slope * mx)

/-- `model.score(X, y)` (`sklearn.metrics.r2_score`): `1 - ss_res/ss_tot`;
when `ss_tot = 0` sklearn returns `1.0` on a perfect fit and `0.0`
otherwise. -/
def r2Score (xs ys : List ℚ) (slope intercept : ℚ) : ℚ :=
  let ssRes := ((xs.zip ys).map
    (fun p => (p.2 - (slope * p.1 + intercept)) ^ 2)).sum
  let my := meanQ ys
  let ssTot := (ys.map (fun y => (y - my) ^ 2)).sum
  if ssTot = 0 then (if ssRes = 0 then 1 else 0) else 1 - ssRes / ssTot

/-- `values[-k:]` (the engine passes `k = min(len(values), 12) ≥ 1`). -/
def lastN (k : Nat) (xs : List ℚ) : List ℚ := xs.drop (xs.length - k)

/-- The forecast arm after sorting: train on the last `min(n, 12)` sorted
observations; if the seasonal fit `fitES` raises (`none`), fall back to the
training mean repeated for the 3 steps, tagging the payload with the method;
both paths report `last_actual = float(values[-1])` (an `IndexError` on an
empty series, unreachable past the engine's empty-frame guard). -/
def forecastFrom (fitES : List ℚ → Option (List ℚ)) (values : List ℚ)
    (target : String) : Except String OpResult :=
  if values.isEmpty then .error "IndexError: index -1 out of bounds"
  else
    match fitES (lastN (min values.length 12) values) with
    | some fc => .ok (.forecastR fc (values.getLastD 0) target none)
    | none =>
        .ok (.forecastR
          (List.replicate 3 (meanQ (lastN (min values.length 12) values)))
          (values.getLastD 0) target (some "simple_average"))

/-- `ExecutionEngine._execute_operation`. -/
def executeOperation (pdSort : Frame → String → Except String Frame)
    (fitES : List ℚ → Option (List ℚ)) (df : Frame) (plan : Plan) :
    Except String OpResult :=
  match plan.operation with
  | "mean" => simpleAgg df plan meanQ
  | "sum" => simpleAgg df plan List.sum
  | "count" =>
      if !plan.group_by.isEmpty then
        if plan.group_by.all (fun c => (colIdx df c).isSome) then
          .ok (.groupedCount ((groupKeys df plan.group_by).map (fun k =>
            (k, (df.rows.filter (fun r =>
              decide (keyOf df plan.group_by r = k))).length))))
        else .error "KeyError: group_by column"
      else .ok (.countR df.rows.length)
  | "min" => simpleAgg df plan minQ
  | "max" => simpleAgg df plan maxQ
  | "std" => simpleAgg df plan stdQ
  | "correlation" => do
      let xc ← reqField plan.x_axis "x_axis"
      let yc ← reqField plan.y_axis "y_axis"
      let xs ← colNums df xc
      let ys ← colNums df yc
      pure (.correlationR (pearson xs ys) xc yc)
  | "regression" => do
      let xc ← reqField plan.x_axis "x_axis"
      let yc ← reqField plan.y_axis "y_axis"
      let xs ← colNums df xc
      let ys ← colNums df yc
      let fit := olsFit xs ys
      pure (.regressionR fit.1 fit.2 (r2Score xs ys fit.1 fit.2) xc yc)
  | "forecast" => do
      let tc ← reqField plan.time_column "time_column"
      let tg ← reqField plan.target_column "target_column"
      let sdf ← pdSort df tc
      let values ← colNums sdf tg
      forecastFrom fitES values tg
  | op => .error ("Unknown operation: " ++ op)

/-- Truthiness of `plan.get('chart_type')` in `execute_plan`. -/
def chartRequested (plan : Plan) : Bool :=
  match plan.chart_type with
  | some s => decide (s ≠ "")
  | none => false

/-- `ExecutionEngine._generate_chart`: `None` when no chart type is set;
otherwise the whole matplotlib body (`render`) runs inside
`try: ... except Exception: return None`, so every internal failure
degrades to `None`. -/
def generate_chart (render : Frame → Plan → Except String String)
    (df : Frame) (plan : Plan) : Option String :=
  match plan.chart_type with
  | none => none
  | some ct =>
      if ct == "" then none
      else
        match render df plan with
        | .ok img => some img
        | .error _ => none

/-- The dict returned by `execute_plan`. -/
structure ExecResult where
  success : Bool
  operation : Option String
  result : Option OpResult
  chart : Option String
  filtered_row_count : Option Nat
  error : Option String
deriving DecidableEq, Repr

/-- The engine's cross-call state (`self.df`, `self.column_info`). -/
structure EngineState where
  df : Option Frame
  column_info : List (String × String)
deriving DecidableEq, Repr

/-- `ExecutionEngine.execute_plan`: the no-data guard, the filters, the
empty-frame guard, the operation, then the best-effort chart; exceptions
from the filter and operation steps surface as the `Execution failed:`
catch-all. -/
def execute_plan (pdSort : Frame → String → Except String Frame)
    (fitES : List ℚ → Option (List ℚ))
    (render : Frame → Plan → Except String String)
    (st : EngineState) (plan : Plan) : ExecResult :=
  match st.df with
  | none => ⟨false, none, none, none, none, some "No CSV data loaded"⟩
  | some df =>
    match apply_filters df plan.filters with
    | .error e =>
        ⟨false, none, none, none, none, some ("Execution failed: " ++ e)⟩
    | .ok fdf =>
      if fdf.rows.isEmpty then
        ⟨false, none, none, none, none,
          some "Filters resulted in empty dataset"⟩
      else
        match executeOperation pdSort fitES fdf plan with
        | .error e =>
            ⟨false, none, none, none, none,
              some ("Execution failed: " ++ e)⟩
        | .ok res =>
            let chart :=
              if chartRequested plan then generate_chart render fdf plan
              else none
            ⟨true, some plan.operation, some res, chart,
              some fdf.rows.length, none⟩

/-- `str(dtype)` names recorded in `column_info`. -/
def dtypeName (b : Bool) : String := if b then "float64" else "object"

/-- The dict returned by `load_csv`. -/
structure LoadResult where
  success : Bool
  columns : Option (List String)
  column_types : Option (List (String × String))
  row_count : Option Nat
  preview : Option (List (List (String × Cell)))
  error : Option String
deriving DecidableEq, Repr

/-- `ExecutionEngine.load_csv`.  `parsed` is the outcome of
`pd.read_csv(file_path)` — a parse failure or a frame; on failure the
`except` handler returns the error dict before `self.df` or
`self.column_info` is assigned, so the state is untouched. -/
def load_csv (st : EngineState) (parsed : Except String Frame) :
    LoadResult × EngineState :=
  match parsed with
  | .error e => (⟨false, none, none, none, none, some e⟩, st)
  | .ok df =>
      let info := df.cols.zip (df.numeric.map dtypeName)
      (⟨true, some df.cols, some info, some df.rows.length,
        some ((df.rows.take 5).map (fun r => df.cols.zip r)), none⟩,
       ⟨some df, info⟩)

/-! ### The sort contract for `forecast` -/

/-- Ascending order on cells as pandas sorts them (numbers by value, strings
lexicographically; a mixed-type column cannot be sorted by pandas, so the
cross-type cases are unreachable and fixed arbitrarily). -/
def cellLeB : Cell → Cell → Bool
  | .cnum a, .cnum b => decide (a ≤ b)
  | .cstr a, .cstr b => decide (a ≤ b)
  | .cnum _, .cstr _ => true
  | .cstr _, .cnum _ => false

/-- Row order by the cells of column `i`. -/
def rowLeAt (i : Nat) (r s : List Cell) : Bool :=
  cellLeB (cellAt r i) (cellAt s i)

/-- The documented contract of `df.sort_values(col)` with the default
`kind='quicksort'`: same columns and dtypes, rows an ascending permutation
by the key column.  pandas documents this kind as NOT stable, so nothing
more is guaranteed about the relative order of tied rows. -/
def IsPandasSortOf (df : Frame) (c : String) (sdf : Frame) : Prop :=
  sdf.cols = df.cols ∧ sdf.numeric = df.numeric ∧
  sdf.rows.Perm df.rows ∧
  ∃ i, colIdx df c = some i ∧
    sdf.rows.Chain' (fun r s => rowLeAt i r s = true)

/-- Stable insertion into an ascending list: the new row goes after every
already-placed row whose key is ≤ its own. -/
def stableInsert (le : List Cell → List Cell → Bool) (r : List Cell) :
    List (List Cell) → List (List Cell)
  | [] => [r]
  | s :: rest =>
      if le s r then s :: stableInsert le r rest else r :: s :: rest

/-- Modelled from the spec: the *stable* ascending sort by `col` that the
spec asserts `sort_values` performs ("ties keep original relative order") —
the spec-side definition to compare against the code's quicksort
contract. -/
def stableSortRows (df : Frame) (c : String) : Except String Frame :=
  match colIdx df c with
  | none => .error ("KeyError: " ++ c)
  | some i =>
      .ok ⟨df.cols, df.numeric,
        df.rows.foldl (fun acc r => stableInsert (rowLeAt i) r acc) []⟩
/-- The plan's `operation` field is missing, or present but outside the
enumerated set (the condition under which the spec demands
`valid = false`). -/
def opMissingOrInvalid (d : List (String × PyVal)) : Bool :=
  match dLookup d "operation" with
  | none => true
  | some v => !setMemOk v validOperations

/-- A two-row frame whose rows are tied on the time column `t`. -/
def tiedFrame : Frame :=
  ⟨["t", "v"], [true, true],
   [[.cnum 1, .cnum 10], [.cnum 1, .cnum 20]]⟩

/-- The same frame with its (time-tied) rows swapped. -/
def tiedFrameSwapped : Frame :=
  ⟨["t", "v"], [true, true],
   [[.cnum 1, .cnum 20], [.cnum 1, .cnum 10]]⟩

/-- A one-cell numeric frame. -/
def oneCellFrame : Frame := ⟨["a"], [true], [[.cnum 1]]⟩

/-- A `count` plan that requests a line chart. -/
def countLinePlan : Plan :=
  ⟨"count", none, [], [], none, none, none, some "line"⟩

/-- The error-or-predicate decision of one `==`/`!=` filter: it depends only
on the frame's columns and dtypes, never on its rows. -/
def eqFilterPlan (cols : List String) (numeric : List Bool)
    (flt : FilterSpec) : Except String (List Cell → Bool) :=
  match List.findIdx? (fun s => s == flt.column) cols with
  | none => .error ("Column not found in dataset: " ++ flt.column)
  | some i =>
    if numeric.getD i false then
      match pyFloat flt.value with
      | none =>
          .error ("Cannot compare numeric column with non-numeric value: " ++
            flt.column)
      | some v =>
          .ok (fun r =>
            match cellAt r i with
            | .cnum q => numCmp flt.operator q v
            | .cstr _ => false)
    else
      if flt.operator == "==" then
        .ok (fun r => pyEqCell (cellAt r i) flt.value)
      else .ok (fun r => !pyEqCell (cellAt r i) flt.value)
theorem setMemStr_eq (v : PyVal) (ss : List String) :
    setMemStr v ss =
      if v.isHashable then .ok (setMemOk v ss) else .error .typeError := by
  cases v <;> rfl

theorem chartTypeMem_eq (v : PyVal) :
    chartTypeMem v =
      if v.isHashable then .ok (chartMemOk v) else .error .typeError := by
  cases v <;> rfl

theorem validate_filter_eq (f : PyVal) (i : Nat) :
    validate_filter f i =
      if hashSafeFilter f then .ok (validateFilterT f i)
      else .error .typeError := by
  cases f <;> simp only [validate_filter, hashSafeFilter, validateFilterT,
    if_true, if_false] <;> try rfl
  case pdict fd =>
    cases hop : dLookup fd "operator" <;>
      simp only [hop, bind, Except.bind, setMemStr_eq]
    · rfl
    · case some v =>
        cases hv : v.isHashable <;> simp [hv, pure, Except.pure]

theorem validateFiltersFrom_eq (fs : List PyVal) (i : Nat) :
    validateFiltersFrom i fs =
      if hashSafeFilters fs then .ok (validateFiltersT i fs)
      else .error .typeError := by
  induction fs generalizing i with
  | nil => rfl
  | cons f rest ih =>
      simp only [validateFiltersFrom, validate_filter_eq, hashSafeFilters,
        validateFiltersT, bind, Except.bind]
      cases hf : hashSafeFilter f <;> simp only [if_true, if_false,
        Bool.false_and, Bool.true_and]
      · rfl
      · rw [ih]
        cases hr : hashSafeFilters rest <;> simp [pure, Except.pure]

theorem opCheckE_eq (d : List (String × PyVal)) :
    opCheckE d =
      if opHS d then .ok (opCheckT d) else .error .typeError := by
  unfold opCheckE opHS opCheckT
  cases hop : dLookup d "operation"
  · rfl
  · case some v =>
      simp only [bind, Except.bind, setMemStr_eq]
      cases hv : v.isHashable <;> simp [pure, Except.pure]

theorem filtersCheckE_eq (d : List (String × PyVal)) :
    filtersCheckE d =
      if filtersHS d then .ok (filterCheckT d) else .error .typeError := by
  unfold filtersCheckE filtersHS filterCheckT
  cases hfl : dLookup d "filters"
  · rfl
  · case some v =>
      cases v <;> simp [validateFiltersFrom_eq]

theorem chartCheckE_eq (d : List (String × PyVal)) :
    chartCheckE d =
      if chartHS d then .ok (chartCheckT d) else .error .typeError := by
  unfold chartCheckE chartHS chartCheckT
  cases hct : dLookup d "chart_type"
  · rfl
  · case some v =>
      simp only [bind, Except.bind, chartTypeMem_eq]
      cases hv : v.isHashable <;> simp [pure, Except.pure]

/-- Master characterization of `validate_plan` on dict plans: it raises
exactly when a membership-tested value is unhashable, and otherwise returns
the verdict assembled from the six independent checks. -/
theorem validatePlanDict_eq (d : List (String × PyVal)) :
    validatePlanDict d =
      if hashSafe d then .ok (verdictOf d) else .error .typeError := by
  unfold validatePlanDict hashSafe verdictOf errorsOf
  rw [opCheckE_eq, filtersCheckE_eq, chartCheckE_eq]
  cases h1 : opHS d <;> cases h2 : filtersHS d <;> cases h3 : chartHS d <;>
    simp [bind, Except.bind, pure, Except.pure]

/-! ## Claim theorems -/

/-- C1, counterexample: `validate_plan` does raise on a malformed plan — a
plan that is not a mapping (here the number `42`) hits `'operation' not in
plan` and raises `TypeError` instead of returning a Verdict. -/
theorem C1_counterexample : validate_plan (.pnum 42) = .error .typeError :=
  rfl

/-- C1 (amended): for every plan that IS a mapping and whose
membership-tested values (`operation`, `chart_type`, each dict filter's
`operator`) are hashable, `validate_plan` returns a Verdict and never
raises, and whenever `operation` is missing or outside the enumerated set
the Verdict has `valid = false` with at least one error. -/
theorem C1_amended_validator_total (d : List (String × PyVal))
    (h : hashSafe d = true) :
    validate_plan (.pdict d) = .ok (verdictOf d) ∧
      (opMissingOrInvalid d = true →
        (verdictOf d).valid = false ∧ (verdictOf d).errors ≠ []) := by
  constructor
  · show validatePlanDict d = _
    rw [validatePlanDict_eq]
    simp [h]
  · intro hop
    have hx : ∃ x, opCheckT d = [x] := by
      unfold opMissingOrInvalid at hop
      unfold opCheckT
      cases hl : dLookup d "operation" with
      | none => exact ⟨_, rfl⟩
      | some v =>
          rw [hl] at hop
          simp only [Bool.not_eq_true'] at hop
          refine ⟨VErr.invalidOperation, ?_⟩
          simp [hop]
    obtain ⟨x, hx⟩ := hx
    constructor
    · simp [verdictOf, errorsOf, hx]
    · simp [verdictOf, errorsOf, hx]

/-- C1, witness. -/
theorem C1_witness :
    validate_plan (.pdict [("operation", .pstr "quantile")]) =
        .ok (verdictOf [("operation", .pstr "quantile")]) ∧
      (verdictOf [("operation", .pstr "quantile")]).valid = false := by
  have h := C1_amended_validator_total [("operation", .pstr "quantile")]
    (by decide)
  exact ⟨h.1, (h.2 (by decide)).1⟩

/-- C2, counterexample: a correlation plan missing BOTH axes receives exactly
one error (the combined axes check), not one error per missing axis. -/
theorem C2_counterexample :
    validate_plan (.pdict [("operation", .pstr "correlation")]) =
        .ok ⟨false, [.correlationRequiresAxes], []⟩ ∧
      ([VErr.correlationRequiresAxes] : List VErr).length = 1 :=
  ⟨rfl, rfl⟩

/-- C2 (amended): for every otherwise-valid `correlation`/`regression` dict
plan in which at least one axis is missing (so not both axes are truthy),
`validate_plan` returns exactly ONE error — a single combined axes error,
whether one or both axes are missing. -/
theorem C2_amended_one_axes_error (d : List (String × PyVal)) (op : String)
    (h : hashSafe d = true)
    (hop : dLookup d "operation" = some (.pstr op))
    (hcr : op = "correlation" ∨ op = "regression")
    (hax : ((dGet d "x_axis").truthy && (dGet d "y_axis").truthy) = false)
    (hf : filterCheckT d = []) (hg : groupCheck d = [])
    (hc : chartCheckT d = []) (hcl : clarCheck d = []) :
    validate_plan (.pdict d) = .ok (verdictOf d) ∧
      (verdictOf d).errors.length = 1 ∧ (verdictOf d).valid = false := by
  have hvd : validate_plan (.pdict d) = .ok (verdictOf d) := by
    show validatePlanDict d = _
    rw [validatePlanDict_eq]
    simp [h]
  have hdget : dGet d "operation" = .pstr op := by
    simp [dGet, dLookup] at hop ⊢
    simp [hop]
  rcases hcr with hco | hco <;> subst hco
  all_goals
    refine ⟨hvd, ?_, ?_⟩ <;>
      simp [verdictOf, errorsOf, hf, hg, hc, hcl, opCheckT, hop,
        opSpecificCheck, hdget, pyIsStrVal, hax, setMemOk, validOperations]

/-- C2, witness. -/
theorem C2_witness :
    validate_plan
        (.pdict [("operation", .pstr "regression"), ("x_axis", .pstr "a")]) =
        .ok (verdictOf
          [("operation", .pstr "regression"), ("x_axis", .pstr "a")]) ∧
      (verdictOf
        [("operation", .pstr "regression"), ("x_axis", .pstr "a")]).errors.length
        = 1 ∧
      (verdictOf
        [("operation", .pstr "regression"),
         ("x_axis", .pstr "a")]).valid = false :=
  C2_amended_one_axes_error _ "regression" (by decide) rfl
    (Or.inr rfl) (by decide) rfl rfl rfl (by decide)

/-- C3 (confirmed): on every hash-safe dict plan, validation does not
short-circuit — the verdict's error list is exactly the concatenation of the
operation check, the per-index filter checks, the `group_by` check, the
`chart_type` check, the clarification check and the operation-specific
checks, in source order; and an unknown present operation contributes
exactly one error to the first component, leaving the rest to run. -/
theorem C3_errors_accumulate (d : List (String × PyVal))
    (h : hashSafe d = true) :
    validate_plan (.pdict d) =
      .ok ⟨(opCheckT d ++ filterCheckT d ++ groupCheck d ++ chartCheckT d ++
             clarCheck d ++ opSpecificCheck d).isEmpty,
           opCheckT d ++ filterCheckT d ++ groupCheck d ++ chartCheckT d ++
             clarCheck d ++ opSpecificCheck d,
           aggWarn d⟩ ∧
      ∀ v, dLookup d "operation" = some v →
        setMemOk v validOperations = false →
        opCheckT d = [VErr.invalidOperation] := by
  constructor
  · show validatePlanDict d = _
    rw [validatePlanDict_eq]
    simp [h, verdictOf, errorsOf]
  · intro v hv hmem
    simp [opCheckT, hv, hmem]

/-- C3, witness: an unknown operation together with a bad filter element and
a bad `group_by` — all three errors are reported. -/
theorem C3_witness :
    validate_plan (.pdict [("operation", .pstr "median"),
        ("filters", .plist [.pstr "x"]), ("group_by", .pnum 3)]) =
      .ok ⟨false,
           opCheckT [("operation", .pstr "median"),
             ("filters", .plist [.pstr "x"]), ("group_by", .pnum 3)] ++
           filterCheckT [("operation", .pstr "median"),
             ("filters", .plist [.pstr "x"]), ("group_by", .pnum 3)] ++
           groupCheck [("operation", .pstr "median"),
             ("filters", .plist [.pstr "x"]), ("group_by", .pnum 3)] ++
           chartCheckT [("operation", .pstr "median"),
             ("filters", .plist [.pstr "x"]), ("group_by", .pnum 3)] ++
           clarCheck [("operation", .pstr "median"),
             ("filters", .plist [.pstr "x"]), ("group_by", .pnum 3)] ++
           opSpecificCheck [("operation", .pstr "median"),
             ("filters", .plist [.pstr "x"]), ("group_by", .pnum 3)],
           aggWarn [("operation", .pstr "median"),
             ("filters", .plist [.pstr "x"]), ("group_by", .pnum 3)]⟩ ∧
      opCheckT [("operation", .pstr "median"),
        ("filters", .plist [.pstr "x"]), ("group_by", .pnum 3)] =
        [VErr.invalidOperation] := by
  have h := C3_errors_accumulate [("operation", .pstr "median"),
    ("filters", .plist [.pstr "x"]), ("group_by", .pnum 3)] (by decide)
  exact ⟨by rw [h.1]; rfl, h.2 (.pstr "median") rfl (by decide)⟩

/-- C4 (confirmed): when the filters apply cleanly and the filtered frame is
empty, `execute_plan` returns the distinguished empty-dataset rejection —
the operation dispatcher is never consulted (the result carries no
operation payload and no `Execution failed:` computation error). -/
theorem C4_empty_filter_rejection
    (pdSort : Frame → String → Except String Frame)
    (fitES : List ℚ → Option (List ℚ))
    (render : Frame → Plan → Except String String)
    (st : EngineState) (df fdf : Frame) (plan : Plan)
    (hdf : st.df = some df)
    (hfl : apply_filters df plan.filters = .ok fdf)
    (hempty : fdf.rows = []) :
    execute_plan pdSort fitES render st plan =
      ⟨false, none, none, none, none,
        some "Filters resulted in empty dataset"⟩ := by
  unfold execute_plan
  rw [hdf]
  simp [hfl, hempty]

/-- C4, witness: one row, filtered out by an equality filter. -/
theorem C4_witness :
    execute_plan stableSortRows (fun _ => none) (fun _ _ => .error "chart")
      ⟨some ⟨["a"], [true], [[.cnum 1]]⟩, []⟩
      ⟨"count", none, [⟨"a", "==", .pnum 2⟩], [], none, none, none, none⟩ =
      ⟨false, none, none, none, none,
        some "Filters resulted in empty dataset"⟩ :=
  C4_empty_filter_rejection stableSortRows (fun _ => none)
    (fun _ _ => .error "chart") ⟨some ⟨["a"], [true], [[.cnum 1]]⟩, []⟩
    ⟨["a"], [true], [[.cnum 1]]⟩ ⟨["a"], [true], []⟩
    ⟨"count", none, [⟨"a", "==", .pnum 2⟩], [], none, none, none, none⟩
    rfl (by with_unfolding_all rfl) rfl

/-- C5, counterexample: regression on a frame with a single distinct x-value
does NOT fail with InsufficientData — it succeeds with a fitted payload
(slope `0`, intercept `mean y`, here `5/2`). -/
theorem C5_counterexample :
    execute_plan stableSortRows (fun _ => none) (fun _ _ => .error "chart")
      ⟨some ⟨["x", "y"], [true, true],
        [[.cnum 1, .cnum 2], [.cnum 1, .cnum 3]]⟩, []⟩
      ⟨"regression", none, [], [], none, some "x", some "y", none⟩ =
      ⟨true, some "regression", some (.regressionR 0 (5 / 2) 0 "x" "y"),
        none, some 2, none⟩ := by
  with_unfolding_all rfl

/-- C5 (amended): on every frame whose x-column is constant (fewer than 2
distinct x-values) the regression operation still succeeds, returning slope
`0` and intercept `mean y` (the minimum-norm least-squares solution), not an
InsufficientData failure. -/
theorem C5_amended_regression_constant_x
    (pdSort : Frame → String → Except String Frame)
    (fitES : List ℚ → Option (List ℚ)) (df : Frame) (plan : Plan)
    (xc yc : String) (xs ys : List ℚ) (c : ℚ)
    (hop : plan.operation = "regression")
    (hx : plan.x_axis = some xc) (hy : plan.y_axis = some yc)
    (hxs : colNums df xc = .ok xs) (hys : colNums df yc = .ok ys)
    (hne : xs ≠ []) (hconst : ∀ a ∈ xs, a = c) :
    executeOperation pdSort fitES df plan =
      .ok (.regressionR 0 (meanQ ys) (r2Score xs ys 0 (meanQ ys)) xc yc) := by
  have hmean : meanQ xs = c := by
    have hsum : xs.sum = xs.length • c := List.sum_eq_card_nsmul xs c hconst
    have hlen : (xs.length : ℚ) ≠ 0 := by
      have h1 : xs.length ≠ 0 := by
        intro h0
        exact hne (List.eq_nil_of_length_eq_zero h0)
      exact_mod_cast h1
    rw [meanQ, hsum, nsmul_eq_mul, mul_comm, mul_div_assoc, div_self hlen,
      mul_one]
  have hsxx : (xs.map (fun x => (x - meanQ xs) ^ 2)).sum = 0 := by
    apply List.sum_eq_zero
    intro q hq
    obtain ⟨a, ha, rfl⟩ := List.mem_map.mp hq
    rw [hmean, hconst a ha]
    ring
  have hols : olsFit xs ys = (0, meanQ ys) := by
    unfold olsFit
    simp [hsxx]
  unfold executeOperation
  rw [hop]
  simp [reqField, hx, hy, hxs, hys, bind, Except.bind, pure, Except.pure,
    hols]

/-- C5, witness. -/
theorem C5_witness :
    executeOperation stableSortRows (fun _ => none)
      ⟨["x", "y"], [true, true],
        [[.cnum 1, .cnum 2], [.cnum 1, .cnum 3]]⟩
      ⟨"regression", none, [], [], none, some "x", some "y", none⟩ =
      .ok (.regressionR 0 (meanQ [2, 3])
        (r2Score [1, 1] [2, 3] 0 (meanQ [2, 3])) "x" "y") :=
  C5_amended_regression_constant_x stableSortRows (fun _ => none)
    ⟨["x", "y"], [true, true], [[.cnum 1, .cnum 2], [.cnum 1, .cnum 3]]⟩
    ⟨"regression", none, [], [], none, some "x", some "y", none⟩
    "x" "y" [1, 1] [2, 3] 1 rfl rfl rfl (by with_unfolding_all rfl)
    (by with_unfolding_all rfl) (by simp)
    (by intro a ha; rcases List.mem_cons.mp ha with h | h
        · exact h
        · simpa using h)

/-- C6 (confirmed): forecasting a non-empty numeric target series never
raises; when the seasonal fit fails the payload is exactly 3 values, each
the training-window mean, tagged `simple_average`, and on either path
`last_actual` is the most recent (last sorted) observation. -/
theorem C6_forecast_fallback
    (pdSort : Frame → String → Except String Frame)
    (fitES : List ℚ → Option (List ℚ)) (df sdf : Frame) (plan : Plan)
    (tc tg : String) (vs : List ℚ)
    (hop : plan.operation = "forecast")
    (htc : plan.time_column = some tc) (htg : plan.target_column = some tg)
    (hsort : pdSort df tc = .ok sdf)
    (hvs : colNums sdf tg = .ok vs) (hne : vs ≠ []) :
    (fitES (lastN (min vs.length 12) vs) = none →
      executeOperation pdSort fitES df plan =
        .ok (.forecastR
          (List.replicate 3 (meanQ (lastN (min vs.length 12) vs)))
          (vs.getLastD 0) tg (some "simple_average"))) ∧
    ∀ res, executeOperation pdSort fitES df plan = .ok res →
      ∃ fc me, res = .forecastR fc (vs.getLastD 0) tg me := by
  have hexec : executeOperation pdSort fitES df plan =
      forecastFrom fitES vs tg := by
    unfold executeOperation
    rw [hop]
    simp only [reqField, htc, htg, hsort, hvs, bind, Except.bind]
  have hnb : vs.isEmpty = false := by
    simpa using hne
  constructor
  · intro hfit
    rw [hexec, forecastFrom, hnb]
    simp [hfit]
  · intro res hres
    rw [hexec, forecastFrom, hnb] at hres
    simp only [Bool.false_eq_true, if_false] at hres
    cases hfit : fitES (lastN (min vs.length 12) vs) <;>
      rw [hfit] at hres <;>
        simp only [Except.ok.injEq] at hres
    · exact ⟨_, _, hres.symm⟩
    · exact ⟨_, _, hres.symm⟩

/-- C6, witness: a 2-point series and a failing seasonal fit. -/
theorem C6_witness :
    executeOperation stableSortRows (fun _ => none)
        ⟨["t", "v"], [true, true],
          [[.cnum 2, .cnum 20], [.cnum 1, .cnum 10]]⟩
        ⟨"forecast", some "v", [], [], some "t", none, none, none⟩ =
      .ok (.forecastR
        (List.replicate 3 (meanQ (lastN (min ([10, 20] : List ℚ).length 12)
          [10, 20])))
        (([10, 20] : List ℚ).getLastD 0) "v" (some "simple_average")) :=
  (C6_forecast_fallback stableSortRows (fun _ => none)
    ⟨["t", "v"], [true, true], [[.cnum 2, .cnum 20], [.cnum 1, .cnum 10]]⟩
    ⟨["t", "v"], [true, true], [[.cnum 1, .cnum 10], [.cnum 2, .cnum 20]]⟩
    ⟨"forecast", some "v", [], [], some "t", none, none, none⟩
    "t" "v" [10, 20] rfl rfl rfl (by with_unfolding_all rfl)
    (by with_unfolding_all rfl) (by simp)).1 rfl

/-- C7, counterexample: the engine's sort is pandas' default quicksort,
whose documented contract (`IsPandasSortOf`) does not force stability — on a
frame with tied time values, the swapped row order also satisfies the
contract yet differs from the stable sort's output, so "ties keep their
original relative order" is not a property of the code. -/
theorem C7_counterexample :
    IsPandasSortOf tiedFrame "t" tiedFrameSwapped ∧
      stableSortRows tiedFrame "t" = .ok tiedFrame ∧
      tiedFrameSwapped ≠ tiedFrame := by
  refine ⟨⟨rfl, rfl, ?_, 0, rfl, ?_⟩, by with_unfolding_all rfl, ?_⟩
  · show List.Perm [[Cell.cnum 1, Cell.cnum 20], [Cell.cnum 1, Cell.cnum 10]]
      [[Cell.cnum 1, Cell.cnum 10], [Cell.cnum 1, Cell.cnum 20]]
    exact List.Perm.swap _ _ _
  · show List.Chain' _
      [[Cell.cnum 1, Cell.cnum 20], [Cell.cnum 1, Cell.cnum 10]]
    refine List.chain'_cons.mpr ⟨?_, List.chain'_singleton _⟩
    with_unfolding_all rfl
  · intro h
    have h2 := congrArg Frame.rows h
    norm_num [tiedFrame, tiedFrameSwapped] at h2

/-- C7 (amended): for every sort output satisfying the quicksort contract
(an ascending permutation by the time column; tie order unspecified), the
forecast outcome is exactly the forecast arm run on the sorted target
series, whose training window is the last `min(n, 12)` observations — in
particular the outcome depends on the fitting procedure only through that
window. -/
theorem C7_amended_training_window
    (pdSort : Frame → String → Except String Frame)
    (fitES fitES2 : List ℚ → Option (List ℚ)) (df sdf : Frame) (plan : Plan)
    (tc tg : String) (vs : List ℚ)
    (hop : plan.operation = "forecast")
    (htc : plan.time_column = some tc) (htg : plan.target_column = some tg)
    (hsort : pdSort df tc = .ok sdf)
    (hcontract : IsPandasSortOf df tc sdf)
    (hvs : colNums sdf tg = .ok vs) :
    executeOperation pdSort fitES df plan = forecastFrom fitES vs tg ∧
      (fitES (lastN (min vs.length 12) vs) =
          fitES2 (lastN (min vs.length 12) vs) →
        executeOperation pdSort fitES df plan =
          executeOperation pdSort fitES2 df plan) := by
  have hexec : ∀ f : List ℚ → Option (List ℚ),
      executeOperation pdSort f df plan = forecastFrom f vs tg := by
    intro f
    unfold executeOperation
    rw [hop]
    simp [reqField, htc, htg, hsort, hvs, bind, Except.bind]
  refine ⟨hexec fitES, ?_⟩
  intro hagree
  rw [hexec fitES, hexec fitES2]
  unfold forecastFrom
  rw [hagree]

/-- C7, witness. -/
theorem C7_amended_training_window_witness :
    executeOperation stableSortRows (fun _ => none) tiedFrame
        ⟨"forecast", some "v", [], [], some "t", none, none, none⟩ =
      forecastFrom (fun _ => none) [10, 20] "v" ∧
    ((fun (_ : List ℚ) => (none : Option (List ℚ)))
        (lastN (min ([10, 20] : List ℚ).length 12) [10, 20]) =
      (fun (_ : List ℚ) => (none : Option (List ℚ)))
        (lastN (min ([10, 20] : List ℚ).length 12) [10, 20]) →
      executeOperation stableSortRows (fun _ => none) tiedFrame
          ⟨"forecast", some "v", [], [], some "t", none, none, none⟩ =
        executeOperation stableSortRows (fun _ => none) tiedFrame
          ⟨"forecast", some "v", [], [], some "t", none, none, none⟩) :=
  C7_amended_training_window stableSortRows (fun _ => none) (fun _ => none)
    tiedFrame tiedFrame
    ⟨"forecast", some "v", [], [], some "t", none, none, none⟩
    "t" "v" [10, 20] rfl rfl rfl (by with_unfolding_all rfl)
    ⟨rfl, rfl, List.Perm.refl _, 0, rfl, by
      refine List.chain'_cons.mpr ⟨?_, List.chain'_singleton _⟩
      with_unfolding_all rfl⟩
    (by with_unfolding_all rfl)

/-- C8 (confirmed): whenever the operation itself succeeds, the execution
result has `success = true` with the computed payload for EVERY chart
renderer behaviour, and a failing renderer only degrades the chart field to
`none` — no chart failure becomes an execution error. -/
theorem C8_chart_failure_harmless
    (pdSort : Frame → String → Except String Frame)
    (fitES : List ℚ → Option (List ℚ))
    (render : Frame → Plan → Except String String)
    (st : EngineState) (df fdf : Frame) (plan : Plan) (res : OpResult)
    (hdf : st.df = some df)
    (hfl : apply_filters df plan.filters = .ok fdf)
    (hne : fdf.rows.isEmpty = false)
    (hopok : executeOperation pdSort fitES fdf plan = .ok res) :
    execute_plan pdSort fitES render st plan =
      ⟨true, some plan.operation, some res,
        (if chartRequested plan then generate_chart render fdf plan
         else none), some fdf.rows.length, none⟩ ∧
    ∀ e, render fdf plan = .error e →
      (execute_plan pdSort fitES render st plan).chart = none := by
  have hmain : execute_plan pdSort fitES render st plan =
      ⟨true, some plan.operation, some res,
        (if chartRequested plan then generate_chart render fdf plan
         else none), some fdf.rows.length, none⟩ := by
    unfold execute_plan
    rw [hdf]
    simp [hfl, hne, hopok]
  refine ⟨hmain, ?_⟩
  intro e he
  rw [hmain]
  show (if chartRequested plan then generate_chart render fdf plan
    else none) = none
  unfold chartRequested generate_chart
  cases hct : plan.chart_type with
  | none => simp
  | some ct =>
      by_cases hc : ct = "" <;> simp [hc, he]

/-- C8, witness: a failing renderer with a requested chart type. -/
theorem C8_witness :
    execute_plan stableSortRows (fun _ => none) (fun _ _ => .error "boom")
        ⟨some oneCellFrame, []⟩ countLinePlan =
      ⟨true, some countLinePlan.operation, some (.countR 1),
        (if chartRequested countLinePlan then
          generate_chart (fun _ _ => .error "boom") oneCellFrame countLinePlan
         else none), some oneCellFrame.rows.length, none⟩ ∧
    (execute_plan stableSortRows (fun _ => none) (fun _ _ => .error "boom")
        ⟨some oneCellFrame, []⟩ countLinePlan).chart = none := by
  have h := C8_chart_failure_harmless stableSortRows (fun _ => none)
    (fun _ _ => .error "boom") ⟨some oneCellFrame, []⟩
    oneCellFrame oneCellFrame countLinePlan (.countR 1) rfl rfl rfl rfl
  exact ⟨h.1, h.2 "boom" rfl⟩

/-- Filtering twice commutes (boolean masks intersect). -/
theorem filter_filter_comm {α : Type} (p q : α → Bool) (l : List α) :
    (l.filter p).filter q = (l.filter q).filter p := by
  induction l with
  | nil => rfl
  | cons x xs ih => cases hp : p x <;> cases hq : q x <;> simp [hp, hq, ih]

/-- Masking by two predicates commutes. -/
theorem maskRows_comm (df : Frame) (p q : List Cell → Bool) :
    maskRows (maskRows df p) q = maskRows (maskRows df q) p := by
  unfold maskRows
  rw [filter_filter_comm]

/-- An `==`/`!=` filter either fails or masks by a fixed row predicate, and
the decision depends only on the frame's columns and dtypes. -/
theorem applyFilter_eqop (df : Frame) (flt : FilterSpec)
    (h : flt.operator = "==" ∨ flt.operator = "!=") :
    applyFilter df flt =
      match eqFilterPlan df.cols df.numeric flt with
      | .error e => .error e
      | .ok p => .ok (maskRows df p) := by
  have hknown : knownOp flt.operator = true := by
    rcases h with h | h <;> rw [h] <;> rfl
  unfold applyFilter eqFilterPlan colIdx numericAt
  cases hidx : List.findIdx? (fun s => s == flt.column) df.cols with
  | none => rfl
  | some i =>
      cases hnum : df.numeric[i]?.getD false with
      | true =>
          cases hfv : pyFloat flt.value with
          | none => simp [hnum, hfv]
          | some v => simp [hnum, hfv, hknown]
      | false =>
          rcases h with h | h <;> simp [hnum, h]

/-- C9 (confirmed): two `==`/`!=` filters on disjoint columns commute — if
applying `[a, b]` succeeds with a frame, applying `[b, a]` succeeds with the
same frame (same row set). -/
theorem C9_eq_filters_commute (df : Frame) (a b : FilterSpec) (g : Frame)
    (ha : a.operator = "==" ∨ a.operator = "!=")
    (hb : b.operator = "==" ∨ b.operator = "!=")
    (hdisj : a.column ≠ b.column)
    (hok : apply_filters df [a, b] = .ok g) :
    apply_filters df [b, a] = .ok g := by
  cases hpa : eqFilterPlan df.cols df.numeric a with
  | error e =>
      have ha1 : applyFilter df a = .error e := by
        rw [applyFilter_eqop df a ha, hpa]
      simp [apply_filters, ha1, bind, Except.bind] at hok
  | ok pa =>
      have ha1 : applyFilter df a = .ok (maskRows df pa) := by
        rw [applyFilter_eqop df a ha, hpa]
      cases hpb : eqFilterPlan df.cols df.numeric b with
      | error e =>
          have hpb' : eqFilterPlan (maskRows df pa).cols
              (maskRows df pa).numeric b = .error e := hpb
          have hb1 : applyFilter (maskRows df pa) b = .error e := by
            rw [applyFilter_eqop _ b hb, hpb']
          simp [apply_filters, ha1, hb1, bind, Except.bind] at hok
      | ok pb =>
          have hpb' : eqFilterPlan (maskRows df pa).cols
              (maskRows df pa).numeric b = .ok pb := hpb
          have hb1 : applyFilter (maskRows df pa) b =
              .ok (maskRows (maskRows df pa) pb) := by
            rw [applyFilter_eqop _ b hb, hpb']
          have hb0 : applyFilter df b = .ok (maskRows df pb) := by
            rw [applyFilter_eqop df b hb, hpb]
          have hpa' : eqFilterPlan (maskRows df pb).cols
              (maskRows df pb).numeric a = .ok pa := hpa
          have ha2 : applyFilter (maskRows df pb) a =
              .ok (maskRows (maskRows df pb) pa) := by
            rw [applyFilter_eqop _ a ha, hpa']
          have hg : g = maskRows (maskRows df pa) pb := by
            simp [apply_filters, ha1, hb1, bind, Except.bind] at hok
            exact hok.symm
          rw [hg]
          simp [apply_filters, hb0, ha2, bind, Except.bind, maskRows_comm]

/-- C9, witness: `a == 1` then `b != 1` equals `b != 1` then `a == 1`. -/
theorem C9_witness :
    apply_filters
        ⟨["a", "b"], [true, true],
          [[.cnum 1, .cnum 1], [.cnum 1, .cnum 2], [.cnum 2, .cnum 1]]⟩
        [⟨"b", "!=", .pnum 1⟩, ⟨"a", "==", .pnum 1⟩] =
      .ok ⟨["a", "b"], [true, true], [[.cnum 1, .cnum 2]]⟩ :=
  C9_eq_filters_commute
    ⟨["a", "b"], [true, true],
      [[.cnum 1, .cnum 1], [.cnum 1, .cnum 2], [.cnum 2, .cnum 1]]⟩
    ⟨"a", "==", .pnum 1⟩ ⟨"b", "!=", .pnum 1⟩
    ⟨["a", "b"], [true, true], [[.cnum 1, .cnum 2]]⟩
    (Or.inl rfl) (Or.inr rfl) (by decide) (by with_unfolding_all rfl)

/-- C10 (confirmed): a failed parse leaves the engine state exactly as it
was — `load_csv` returns the error dict and the untouched state, and a
subsequent `execute_plan` behaves as if the failed load never happened. -/
theorem C10_load_failure_atomic (st : EngineState) (e : String) :
    load_csv st (.error e) =
      (⟨false, none, none, none, none, some e⟩, st) ∧
    ∀ (pdSort : Frame → String → Except String Frame)
      (fitES : List ℚ → Option (List ℚ))
      (render : Frame → Plan → Except String String) (plan : Plan),
      execute_plan pdSort fitES render (load_csv st (.error e)).2 plan =
        execute_plan pdSort fitES render st plan :=
  ⟨rfl, fun _ _ _ _ => rfl⟩

end WakeAnalyzer
